import Mathlib

set_option maxHeartbeats 1000000
set_option autoImplicit false

/- Shallow embedding of the FMU build-and-validate pipeline of this repository:
   build/build_fmu.py (script generation, pipeline driver), twinctl.py (staging,
   CLI build path), build/split_validation_csv.py (reference-CSV splitter) and
   tests/validate_fmu_docker.py (validation engine). Numeric values handled by
   the Python code as floats are modelled as rationals; CSV cell text is kept
   as strings where the code keeps it as strings. -/

/- ----------------------------------------------------------------------------
   Script generator (build/build_fmu.py, generate_build_script, lines 97-163)
   ---------------------------------------------------------------------------- -/

/-- One entry of config['external_libraries'] (fields 'name' and 'path'). -/
structure ExtLib where
  name : String
  path : String
  deriving DecidableEq, Repr

/-- The config['fmu'] section as used by generate_build_script: every field is
read with .get and a default, so each is optional. -/
structure FmuOpts where
  version : Option String
  fmuType : Option String
  output_name : Option String
  platform : Option String
  deriving DecidableEq, Repr

/-- The validated configuration fields consumed by generate_build_script
(build_fmu.py lines 100-104 and 109). -/
structure GenConfig where
  model_class : String
  main : String
  dependencies : List String
  external_libraries : List ExtLib
  msl_version : Option String
  fmu : FmuOpts
  deriving DecidableEq, Repr

/-- One emitted chunk of the generated build.mos script. Each constructor
corresponds to one `script += ...` statement of generate_build_script
(a chunk ending in a double newline is modelled as the chunk followed by
`blank`). -/
inductive Item where
  | header
  | mslComment (v : String)
  | installPkg (pkg : String) (v : String)
  | libComment (libName : String)
  | loadFile (path : String)
  | mainComment
  | buildComment
  | printComment
  | buildFMU (modelClass version fmuType outputName platform : String)
  | flushItem
  | blank
  deriving DecidableEq, Repr

/-- Exact text of each emitted chunk (build_fmu.py lines 107-155). -/
def renderItem : Item → String
  | Item.header => "// Auto-generated build script from project.yaml\n"
  | Item.mslComment v => "// Load Modelica Standard Library v" ++ v ++ "\n"
  | Item.installPkg pkg v => "installPackage(" ++ pkg ++ ", \"" ++ v ++ "\");\n"
  | Item.libComment libName => "// Load external library: " ++ libName ++ "\n"
  | Item.loadFile path => "loadFile(\"" ++ path ++ "\");\n"
  | Item.mainComment => "// Load main model file\n"
  | Item.buildComment => "// Build FMU\n"
  | Item.printComment => "// Print any errors\n"
  | Item.buildFMU mc v t n p =>
      "buildModelFMU(\n    " ++ mc ++ ",\n    version=\"" ++ v ++
        "\",\n    fmuType=\"" ++ t ++ "\",\n    fileNamePrefix=\"" ++ n ++
        "\",\n    platforms=\x7b\"" ++ p ++ "\"\x7d\n);\n\n"
  | Item.flushItem => "getErrorString();\n"
  | Item.blank => "\n"

/-- The sequence of chunks emitted by generate_build_script, in emission order
(build_fmu.py lines 106-155): header comment; optional MSL install block
(lines 109-117); one comment/loadFile/getErrorString/blank group per external
library (lines 120-124); the main-file group (lines 127-129); one
loadFile/getErrorString pair per dependency plus a blank if any (lines
132-137); the buildModelFMU directive and the final getErrorString
(lines 140-155). -/
def scriptItems (cfg : GenConfig) : List Item :=
  let msl := cfg.msl_version.getD ("default")
  [Item.header]
    ++ (if msl ≠ "default" then
          [Item.mslComment msl, Item.installPkg ("Modelica") msl, Item.flushItem, Item.blank]
            ++ (if msl.startsWith ("4.") then
                  [Item.installPkg ("Complex") msl, Item.flushItem, Item.blank]
                else [])
        else [])
    ++ cfg.external_libraries.flatMap (fun lib =>
        [Item.libComment lib.name,
         Item.loadFile ("input/src/libraries/" ++ lib.path),
         Item.flushItem, Item.blank])
    ++ [Item.mainComment, Item.loadFile ("input/src/" ++ cfg.main), Item.flushItem, Item.blank]
    ++ cfg.dependencies.flatMap (fun dep =>
        [Item.loadFile ("input/src/" ++ dep), Item.flushItem])
    ++ (if cfg.dependencies ≠ [] then [Item.blank] else [])
    ++ [Item.buildComment,
        Item.buildFMU cfg.model_class (cfg.fmu.version.getD ("2.0"))
          (cfg.fmu.fmuType.getD ("cs")) (cfg.fmu.output_name.getD ("DigitalTwin"))
          (cfg.fmu.platform.getD ("static")),
        Item.printComment, Item.flushItem]

/-- The script text built by generate_build_script: the concatenation of all
emitted chunks, in order. -/
def generate_build_script (cfg : GenConfig) : String :=
  String.join ((scriptItems cfg).map renderItem)

/-- The file writes generate_build_script performs (build_fmu.py lines
158-160): it opens build/generated_build.mos and writes the script text. -/
def generate_build_script_writes (cfg : GenConfig) : List (String × String) :=
  [("build/generated_build.mos", generate_build_script cfg)]

/-- Abstract view of the directives of the generated script (comments and
blank lines are not directives). -/
inductive Directive where
  | load (path : String)
  | flush
  | install (pkg : String) (v : String)
  | build (modelClass version fmuType outputName platform : String)
  deriving DecidableEq, Repr

/-- Classify an emitted chunk as a directive (or not, for comments/blanks). -/
def toDirective : Item → Option Directive
  | Item.loadFile p => some (Directive.load p)
  | Item.flushItem => some Directive.flush
  | Item.installPkg pkg v => some (Directive.install pkg v)
  | Item.buildFMU a b c d e => some (Directive.build a b c d e)
  | _ => none

/-- The directive sequence of the generated script. -/
def scriptDirectives (cfg : GenConfig) : List Directive :=
  (scriptItems cfg).filterMap toDirective

/-- Paths of the loadFile directives, in order. -/
def loadPathOf : Directive → Option String
  | Directive.load p => some p
  | _ => none

def loadsOf (l : List Directive) : List String :=
  l.filterMap loadPathOf

def isBuildDirective : Directive → Bool
  | Directive.build _ _ _ _ _ => true
  | _ => false

/-- Every load directive is immediately followed by a diagnostics-flush
directive. -/
def flushCovered (l : List Directive) : Prop :=
  ∀ n p, l.get? n = some (Directive.load p) → l.get? (n + 1) = some Directive.flush

/-- The directives contributed by the optional MSL-install block. -/
def mslDirectives (msl : String) : List Directive :=
  if msl ≠ "default" then
    [Directive.install ("Modelica") msl, Directive.flush]
      ++ (if msl.startsWith ("4.") then
            [Directive.install ("Complex") msl, Directive.flush]
          else [])
  else []

theorem filterMap_bind_eq {α β γ : Type} (l : List α) (g : α → List β) (f : β → Option γ) :
    (l.flatMap g).filterMap f = l.flatMap (fun a => (g a).filterMap f) := by
  induction l with
  | nil => rfl
  | cons a t ih => simp [List.flatMap_cons, List.filterMap_append, ih]

/-- Closed form of the directive sequence. -/
theorem scriptDirectives_eq (cfg : GenConfig) :
    scriptDirectives cfg =
      mslDirectives (cfg.msl_version.getD ("default"))
        ++ cfg.external_libraries.flatMap (fun lib =>
            [Directive.load ("input/src/libraries/" ++ lib.path), Directive.flush])
        ++ [Directive.load ("input/src/" ++ cfg.main), Directive.flush]
        ++ cfg.dependencies.flatMap (fun dep =>
            [Directive.load ("input/src/" ++ dep), Directive.flush])
        ++ [Directive.build cfg.model_class (cfg.fmu.version.getD ("2.0"))
              (cfg.fmu.fmuType.getD ("cs")) (cfg.fmu.output_name.getD ("DigitalTwin"))
              (cfg.fmu.platform.getD ("static")),
            Directive.flush] := by
  unfold scriptDirectives scriptItems mslDirectives
  simp only [List.filterMap_append, filterMap_bind_eq]
  split_ifs <;>
    simp [toDirective, List.filterMap_cons]

theorem loadsOf_pair_bind {α : Type} (l : List α) (f : α → String) :
    loadsOf (l.flatMap (fun a => [Directive.load (f a), Directive.flush])) = l.map f := by
  induction l with
  | nil => rfl
  | cons a t ih =>
      simp only [List.flatMap_cons, loadsOf, List.filterMap_append] at *
      simp [loadPathOf, ih]

theorem loadsOf_msl (msl : String) : loadsOf (mslDirectives msl) = [] := by
  unfold mslDirectives loadsOf
  split_ifs <;> simp [loadPathOf]

theorem flushCovered_cons (d : Directive) (l : List Directive) :
    flushCovered (d :: l) ↔
      ((∀ p, d = Directive.load p → l.head? = some Directive.flush) ∧ flushCovered l) := by
  constructor
  · intro h
    refine ⟨fun p hp => ?_, fun n p hp => h (n + 1) p (by simpa using hp)⟩
    have := h 0 p (by simpa using hp)
    simpa [List.get?_cons_succ, ← List.get?_zero] using this
  · rintro ⟨h0, h⟩ n p hp
    cases n with
    | zero =>
        simp only [List.get?_cons_zero, Option.some_inj] at hp
        simpa [List.get?_cons_succ, ← List.get?_zero] using h0 p hp
    | succ m =>
        simp only [List.get?_cons_succ] at hp ⊢
        exact h m p hp

theorem flushCovered_nil : flushCovered [] := by
  intro n p hp
  simp at hp

theorem flushCovered_skip (d : Directive) (l : List Directive)
    (hd : ∀ p, d ≠ Directive.load p) (h : flushCovered l) : flushCovered (d :: l) := by
  exact (flushCovered_cons d l).2 ⟨fun p hp => absurd hp (hd p), h⟩

theorem flushCovered_load_flush (p : String) (l : List Directive)
    (h : flushCovered l) : flushCovered (Directive.load p :: Directive.flush :: l) := by
  refine (flushCovered_cons _ _).2 ⟨fun q _ => rfl, ?_⟩
  exact flushCovered_skip _ _ (fun q hq => by cases hq) h

theorem flushCovered_pair_bind {α : Type} (l : List α) (f : α → String)
    (rest : List Directive) (h : flushCovered rest) :
    flushCovered (l.flatMap (fun a => [Directive.load (f a), Directive.flush]) ++ rest) := by
  induction l with
  | nil => simpa using h
  | cons a t ih =>
      simp only [List.flatMap_cons, List.append_assoc, List.cons_append, List.nil_append]
      exact flushCovered_load_flush _ _ ih

theorem flushCovered_msl (msl : String) (rest : List Directive)
    (h : flushCovered rest) : flushCovered (mslDirectives msl ++ rest) := by
  unfold mslDirectives
  split_ifs with h1 h2
  · simp only [List.append_assoc, List.cons_append, List.nil_append]
    refine flushCovered_skip _ _ (fun q hq => by cases hq) ?_
    refine flushCovered_skip _ _ (fun q hq => by cases hq) ?_
    refine flushCovered_skip _ _ (fun q hq => by cases hq) ?_
    exact flushCovered_skip _ _ (fun q hq => by cases hq) h
  · simp only [List.append_assoc, List.cons_append, List.nil_append]
    refine flushCovered_skip _ _ (fun q hq => by cases hq) ?_
    exact flushCovered_skip _ _ (fun q hq => by cases hq) h
  · simpa using h

theorem notBuild_pair_bind {α : Type} (l : List α) (f : α → String) (d : Directive)
    (hd : d ∈ l.flatMap (fun a => [Directive.load (f a), Directive.flush])) :
    isBuildDirective d = false := by
  rcases List.mem_flatMap.1 hd with ⟨a, _, hmem⟩
  simp only [List.mem_cons, List.not_mem_nil, or_false] at hmem
  rcases hmem with h | h <;> subst h <;> rfl

theorem notBuild_msl (msl : String) (d : Directive) (hd : d ∈ mslDirectives msl) :
    isBuildDirective d = false := by
  unfold mslDirectives at hd
  split_ifs at hd with h1 h2
  · simp only [List.cons_append, List.nil_append, List.mem_cons,
      List.not_mem_nil, or_false] at hd
    rcases hd with h | h | h | h <;> subst h <;> rfl
  · simp only [List.append_nil, List.mem_cons, List.not_mem_nil, or_false] at hd
    rcases hd with h | h <;> subst h <;> rfl
  · simp at hd

/-- Claim C1: for every config with N external libraries and M dependencies,
the generated script's load directives appear in exactly the order: the N
external-library paths in declaration order, then the main file, then the M
dependencies in declaration order; every load directive is immediately
followed by a getErrorString diagnostics-flush directive; and the script ends
with exactly one buildModelFMU package-build directive followed by a final
diagnostics-flush directive (no build directive occurs earlier). -/
theorem script_load_order (cfg : GenConfig) :
    loadsOf (scriptDirectives cfg) =
        cfg.external_libraries.map (fun lib => "input/src/libraries/" ++ lib.path)
          ++ ["input/src/" ++ cfg.main]
          ++ cfg.dependencies.map (fun dep => "input/src/" ++ dep)
      ∧ flushCovered (scriptDirectives cfg)
      ∧ (∃ pre, scriptDirectives cfg =
            pre ++ [Directive.build cfg.model_class (cfg.fmu.version.getD ("2.0"))
                      (cfg.fmu.fmuType.getD ("cs")) (cfg.fmu.output_name.getD ("DigitalTwin"))
                      (cfg.fmu.platform.getD ("static")),
                    Directive.flush]
            ∧ ∀ d ∈ pre, isBuildDirective d = false) := by
  have heq := scriptDirectives_eq cfg
  refine ⟨?_, ?_, ?_⟩
  · rw [heq]
    have hmsl : (mslDirectives (cfg.msl_version.getD ("default"))).filterMap loadPathOf
        = [] := loadsOf_msl _
    have hlib := loadsOf_pair_bind cfg.external_libraries
        (fun lib => "input/src/libraries/" ++ lib.path)
    have hdep := loadsOf_pair_bind cfg.dependencies (fun dep => "input/src/" ++ dep)
    simp only [loadsOf] at hlib hdep
    simp only [loadsOf, List.filterMap_append, hmsl, hlib, hdep]
    simp [loadPathOf]
  · rw [heq]
    simp only [List.append_assoc, List.cons_append, List.nil_append]
    refine flushCovered_msl _ _ ?_
    refine flushCovered_pair_bind _ _ _ ?_
    refine flushCovered_load_flush _ _ ?_
    refine flushCovered_pair_bind _ _ _ ?_
    refine flushCovered_skip _ _ (fun q hq => by cases hq) ?_
    exact flushCovered_skip _ _ (fun q hq => by cases hq) flushCovered_nil
  · refine ⟨mslDirectives (cfg.msl_version.getD ("default"))
        ++ cfg.external_libraries.flatMap (fun lib =>
            [Directive.load ("input/src/libraries/" ++ lib.path), Directive.flush])
        ++ [Directive.load ("input/src/" ++ cfg.main), Directive.flush]
        ++ cfg.dependencies.flatMap (fun dep =>
            [Directive.load ("input/src/" ++ dep), Directive.flush]), ?_, ?_⟩
    · rw [heq]
    · intro d hd
      simp only [List.append_assoc, List.mem_append] at hd
      rcases hd with hd | hd | hd | hd
      · exact notBuild_msl _ _ hd
      · exact notBuild_pair_bind _ _ _ hd
      · simp only [List.mem_cons, List.not_mem_nil, or_false] at hd
        rcases hd with h | h <;> subst h <;> rfl
      · exact notBuild_pair_bind _ _ _ hd

/-- Concrete instantiation of script_load_order on a sample config. -/
theorem script_load_order_inst :
    loadsOf (scriptDirectives
        ⟨"Pkg.Model", "model/Main.mo", ["model/Dep1.mo", "model/Dep2.mo"],
         [⟨"LibA", "LibA/package.mo"⟩], some ("4.0.0"),
         ⟨none, none, none, none⟩⟩) =
      ["input/src/libraries/LibA/package.mo", "input/src/model/Main.mo",
       "input/src/model/Dep1.mo", "input/src/model/Dep2.mo"] := by
  have h := script_load_order
      ⟨"Pkg.Model", "model/Main.mo", ["model/Dep1.mo", "model/Dep2.mo"],
       [⟨"LibA", "LibA/package.mo"⟩], some ("4.0.0"),
       ⟨none, none, none, none⟩⟩
  simpa using h.1

/-- Claim C5 counterexample: generate_build_script is not free of I/O — at any
concrete config it performs a file write, saving the script text to
build/generated_build.mos (build_fmu.py lines 158-160), so the claim's
"no I/O inside the function" part fails (the script text itself is still a
pure function of the config, see the amended theorem). -/
theorem generate_writes_cex :
    generate_build_script_writes
        ⟨"M", "Main.mo", [], [], none, ⟨none, none, none, none⟩⟩ ≠ []
      ∧ (generate_build_script_writes
          ⟨"M", "Main.mo", [], [], none, ⟨none, none, none, none⟩⟩).length = 1 := by
  constructor
  · simp [generate_build_script_writes]
  · rfl

/-- Claim C5 (amended): the script text and the file write performed by
generate_build_script are fully determined by the config — two calls with
equal ConfigModel input produce byte-identical script text and identical
writes; the embedding takes no environment, randomness or other input. The
only I/O inside the function is writing its own deterministic output (and
progress printing). -/
theorem generate_deterministic (c1 c2 : GenConfig) (h : c1 = c2) :
    generate_build_script c1 = generate_build_script c2
      ∧ generate_build_script_writes c1 = generate_build_script_writes c2 := by
  subst h
  exact ⟨rfl, rfl⟩

/-- Concrete instantiation of generate_deterministic. -/
theorem generate_deterministic_inst :
    generate_build_script ⟨"M", "Main.mo", [], [], none, ⟨none, none, none, none⟩⟩
      = generate_build_script ⟨"M", "Main.mo", [], [], none, ⟨none, none, none, none⟩⟩ :=
  (generate_deterministic
    ⟨"M", "Main.mo", [], [], none, ⟨none, none, none, none⟩⟩
    ⟨"M", "Main.mo", [], [], none, ⟨none, none, none, none⟩⟩ rfl).1

/- ----------------------------------------------------------------------------
   Validation engine (tests/validate_fmu_docker.py, validate_fmu, lines 40-164)
   ---------------------------------------------------------------------------- -/

/-- A parsed CSV data row: column name to numeric value (the engine converts
every cell it uses with float(); floats are modelled as rationals). -/
abbrev Row := List (String × ℚ)

/-- Dictionary lookup in a row (Python `name in row` / `row[name]`). -/
def rowGet (row : Row) (k : String) : Option ℚ :=
  (row.find? (fun p => p.1 == k)).map (fun p => p.2)

/-- One entry of config['interface'].inputs or .outputs: a variable name with
an optional fmu_variable alias. -/
structure VarSpec where
  name : String
  fmu_variable : Option String
  deriving DecidableEq, Repr

/-- The parts of the loaded config the validation engine reads (lines 77-81). -/
structure ValConfig where
  inputs : List VarSpec
  outputs : List VarSpec
  tolerance_percent : Option ℚ
  deriving DecidableEq, Repr

/-- Oracle for the compiled FMU binary as driven through fmpy: a state type, a
fresh-instance state, and the effect of each FMI call the engine makes. -/
structure FMU (σ : Type) where
  instantiate : σ
  setReal : σ → Nat → ℚ → σ
  doStep : σ → ℚ → ℚ → σ
  getReal : σ → Nat → ℚ

/-- FMI calls issued by the engine, in issue order. -/
inductive Event where
  | instantiate
  | setupExperiment (startTime : ℚ)
  | enterInit
  | exitInit
  | setReal (vr : Nat) (value : ℚ)
  | doStep (time stepSize : ℚ)
  | getReal (vr : Nat)
  | terminate
  | freeInstance
  deriving DecidableEq, Repr

/-- One recorded failure (validate_fmu_docker.py lines 132-138). -/
structure Failure where
  time : ℚ
  output : String
  actual : ℚ
  expected : ℚ
  error_pct : ℚ
  deriving DecidableEq, Repr

/-- Relative-error computation (lines 120-124): percent error
|actual - expected| / |expected| * 100 when expected is nonzero; when expected
is exactly zero, 0 for |actual| below 1e-6 and 100 otherwise. The
zero-expected branch performs no division. -/
def error_pct (actual expected : ℚ) : ℚ :=
  if expected ≠ 0 then |(actual - expected) / expected| * 100
  else if |actual| < 1 / 1000000 then 0 else 100

/-- Per-check verdict string (line 127). -/
def check_status (tolerance_pct actual expected : ℚ) : String :=
  if error_pct actual expected ≤ tolerance_pct then "PASS" else "FAIL"

/-- Conditional failure record (lines 131-138). -/
def check_failure (tolerance_pct t : ℚ) (outName : String) (actual expected : ℚ) :
    Option Failure :=
  if error_pct actual expected > tolerance_pct then
    some ⟨t, outName, actual, expected, error_pct actual expected⟩
  else none

/-- The name looked up in the FMU variable table (line 57) for a value
reference. -/
def vrsGet (vrs : List (String × Nat)) (k : String) : Option Nat :=
  (vrs.find? (fun p => p.1 == k)).map (fun p => p.2)

/-- Loop body of the input-setting loop (lines 93-97): an input is set only if
its name is a column of the row and a variable of the FMU. -/
def setInputStep {σ : Type} (M : FMU σ) (vrs : List (String × Nat)) (row : Row)
    (acc : σ × List Event) (v : VarSpec) : σ × List Event :=
  match rowGet row v.name with
  | none => acc
  | some value =>
    match vrsGet vrs v.name with
    | none => acc
    | some vr => (M.setReal acc.1 vr value, acc.2 ++ [Event.setReal vr value])

def setInputs {σ : Type} (M : FMU σ) (vrs : List (String × Nat))
    (inputs : List VarSpec) (row : Row) (s : σ) : σ × List Event :=
  inputs.foldl (setInputStep M vrs row) (s, [])

/-- Resolved FMU variable name of an output (line 105):
output_spec.get('fmu_variable', output_name). -/
def resolveOutputVar (v : VarSpec) : String :=
  v.fmu_variable.getD v.name

/-- Output reading (lines 103-107): an output is read only if its resolved
variable name is in the FMU variable table. -/
def readOutputs {σ : Type} (M : FMU σ) (vrs : List (String × Nat))
    (outputs : List VarSpec) (s : σ) : List (String × ℚ) × List Event :=
  (outputs.filterMap (fun v =>
      (vrsGet vrs (resolveOutputVar v)).map (fun vr => (v.name, M.getReal s vr))),
   outputs.filterMap (fun v =>
      (vrsGet vrs (resolveOutputVar v)).map (fun vr => Event.getReal vr)))

/-- Per-row comparison (lines 110-138): each read output with a matching column
in the expected row is checked; a failure is recorded iff its error exceeds
the tolerance. -/
def compareRow (tolerance_pct t : ℚ) (acts : List (String × ℚ)) (erow : Row) :
    List Failure :=
  acts.flatMap (fun p =>
    match rowGet erow p.1 with
    | none => []
    | some expd => (check_failure tolerance_pct t p.1 p.2 expd).toList)

/-- The per-row loop (lines 89-138), threading the single FMU instance state
through all rows; returns none where the Python raises (a row without a
'time' column). Row i of the inputs is compared against row i of the expected
outputs (stepping through expected in parallel). -/
def validate_rows {σ : Type} (M : FMU σ) (vrs : List (String × Nat))
    (cfg : ValConfig) (tolerance_pct : ℚ) (rows expected : List Row) (s : σ) :
    Option (σ × List Event × List Failure) :=
  match rows with
  | [] => some (s, [], [])
  | row :: rest =>
    match rowGet row ("time") with
    | none => none
    | some t =>
      let si := setInputs M vrs cfg.inputs row s
      let s2 := M.doStep si.1 t 1
      let outs := readOutputs M vrs cfg.outputs s2
      let fails :=
        match expected with
        | [] => []
        | erow :: _ => compareRow tolerance_pct t outs.1 erow
      match validate_rows M vrs cfg tolerance_pct rest expected.tail s2 with
      | none => none
      | some r => some (r.1, si.2 ++ Event.doStep t 1 :: outs.2 ++ r.2.1, fails ++ r.2.2)

/-- The validation engine (lines 40-164): early success when no test_inputs
file exists; otherwise one instantiate/setupExperiment/initialization sequence
(lines 59-70), the row loop, one terminate/freeInstance teardown (lines
140-141), and the aggregate verdict (lines 144-164): pass iff there is no
expected data or no failure was recorded. -/
def validate_fmu {σ : Type} (M : FMU σ) (vrs : List (String × Nat))
    (inputCsvFound : Bool) (cfg : ValConfig) (test_inputs expected_outputs : List Row) :
    Option (Bool × List Event × List Failure) :=
  match inputCsvFound with
  | false => some (true, [], [])
  | true =>
    match validate_rows M vrs cfg (cfg.tolerance_percent.getD 5)
        test_inputs expected_outputs M.instantiate with
    | none => none
    | some r =>
      some (if expected_outputs.isEmpty then true else r.2.2.isEmpty,
            Event.instantiate :: Event.setupExperiment 0 :: Event.enterInit ::
              Event.exitInit :: (r.2.1 ++ [Event.terminate, Event.freeInstance]),
            r.2.2)

def isCallEvent : Event → Bool
  | Event.setReal _ _ => true
  | Event.doStep _ _ => true
  | Event.getReal _ => true
  | _ => false

def isSetRealEvent : Event → Bool
  | Event.setReal _ _ => true
  | _ => false

def isGetRealEvent : Event → Bool
  | Event.getReal _ => true
  | _ => false

def isStepEvent : Event → Bool
  | Event.doStep _ _ => true
  | _ => false

theorem setInputs_foldl_events {σ : Type} (M : FMU σ) (vrs : List (String × Nat))
    (row : Row) (inputs : List VarSpec) :
    ∀ acc : σ × List Event, (∀ e ∈ acc.2, isCallEvent e = true) →
      ∀ e ∈ (inputs.foldl (setInputStep M vrs row) acc).2, isCallEvent e = true := by
  induction inputs with
  | nil => intro acc hacc e he; exact hacc e he
  | cons v rest ih =>
      intro acc hacc e he
      refine ih (setInputStep M vrs row acc v) ?_ e he
      intro x hx
      unfold setInputStep at hx
      rcases h1 : rowGet row v.name with _ | value
      · rw [h1] at hx; exact hacc x hx
      · rw [h1] at hx
        rcases h2 : vrsGet vrs v.name with _ | vr
        · rw [h2] at hx; exact hacc x hx
        · rw [h2] at hx
          simp only [List.mem_append, List.mem_singleton] at hx
          rcases hx with hx | hx
          · exact hacc x hx
          · subst hx; rfl

theorem readOutputs_events {σ : Type} (M : FMU σ) (vrs : List (String × Nat))
    (outputs : List VarSpec) (s : σ) :
    ∀ e ∈ (readOutputs M vrs outputs s).2, isCallEvent e = true := by
  intro e he
  unfold readOutputs at he
  simp only [List.mem_filterMap] at he
  rcases he with ⟨v, _, hmap⟩
  rcases h : vrsGet vrs (resolveOutputVar v) with _ | vr
  · rw [h] at hmap; cases hmap
  · rw [h] at hmap
    simp only [Option.map_some', Option.some_inj] at hmap
    subst hmap
    rfl

theorem validate_rows_events {σ : Type} (M : FMU σ) (vrs : List (String × Nat))
    (cfg : ValConfig) (tol : ℚ) (rows : List Row) :
    ∀ (expected : List Row) (s : σ) (r : σ × List Event × List Failure),
      validate_rows M vrs cfg tol rows expected s = some r →
      ∀ e ∈ r.2.1, isCallEvent e = true := by
  induction rows with
  | nil =>
      intro expected s r h e he
      unfold validate_rows at h
      simp only [Option.some_inj] at h
      subst h
      simp at he
  | cons row rest ih =>
      intro expected s r h e he
      unfold validate_rows at h
      split at h
      · cases h
      · dsimp only at h
        split at h
        · cases h
        · rename_i r0 h2
          simp only [Option.some_inj] at h
          subst h
          simp only [List.mem_append, List.mem_cons] at he
          rcases he with (he | he | he) | he
          · exact setInputs_foldl_events M vrs row cfg.inputs (s, [])
              (by intro x hx; simp at hx) e he
          · subst he; rfl
          · exact readOutputs_events M vrs cfg.outputs _ e he
          · exact ih expected.tail _ r0 h2 e he

/-- Claim C2 counterexample: a concrete two-row run of the validation engine
issues exactly one instantiate call and one terminate call in total (not one
per row): the same simulation instance is shared by both rows. -/
theorem validate_single_instance_cex :
    (validate_fmu ⟨(), fun s _ _ => s, fun s _ _ => s, fun _ _ => 0⟩ [] true
        ⟨[], [], none⟩ [[("time", 0)], [("time", 1)]] []).map
        (fun r => (r.2.1.count Event.instantiate, r.2.1.count Event.terminate,
                   r.2.1.countP isStepEvent))
      = some (1, 1, 2) := by
  decide

/-- Claim C2 (amended): the engine creates a single simulation instance before
processing any row and shares it across all rows (so a row's final state is
the next row's initial state); it performs exactly one explicit teardown
(terminate then freeInstance), after all rows, regardless of pass/fail — not
one instantiation and teardown per row. -/
theorem validate_single_instance {σ : Type} (M : FMU σ) (vrs : List (String × Nat))
    (cfg : ValConfig) (tin texp : List Row) (r : Bool × List Event × List Failure)
    (h : validate_fmu M vrs true cfg tin texp = some r) :
    ∃ E, r.2.1 = Event.instantiate :: Event.setupExperiment 0 :: Event.enterInit ::
          Event.exitInit :: (E ++ [Event.terminate, Event.freeInstance])
      ∧ Event.instantiate ∉ E ∧ Event.terminate ∉ E ∧ Event.freeInstance ∉ E := by
  unfold validate_fmu at h
  dsimp only at h
  split at h
  · cases h
  · rename_i r0 h2
    simp only [Option.some_inj] at h
    subst h
    refine ⟨r0.2.1, rfl, ?_, ?_, ?_⟩ <;>
      intro hmem <;>
      have := validate_rows_events M vrs cfg (cfg.tolerance_percent.getD 5)
        tin texp M.instantiate r0 h2 _ hmem <;>
      simp [isCallEvent] at this

/-- Concrete instantiation of validate_single_instance on a one-row run. -/
theorem validate_single_instance_inst :
    validate_fmu ⟨(), fun s _ _ => s, fun s _ _ => s, fun _ _ => 0⟩ [] true
        ⟨[], [], none⟩ [[("time", 0)]] []
      = some (true, [Event.instantiate, Event.setupExperiment 0, Event.enterInit,
          Event.exitInit, Event.doStep 0 1, Event.terminate, Event.freeInstance], [])
      ∧ ∃ E, [Event.instantiate, Event.setupExperiment 0, Event.enterInit,
          Event.exitInit, Event.doStep 0 1, Event.terminate, Event.freeInstance]
          = Event.instantiate :: Event.setupExperiment 0 :: Event.enterInit ::
              Event.exitInit :: (E ++ [Event.terminate, Event.freeInstance])
          ∧ Event.instantiate ∉ E ∧ Event.terminate ∉ E ∧ Event.freeInstance ∉ E := by
  have hrun : validate_fmu ⟨(), fun s _ _ => s, fun s _ _ => s, fun _ _ => 0⟩ [] true
      ⟨[], [], none⟩ [[("time", 0)]] []
      = some (true, [Event.instantiate, Event.setupExperiment 0, Event.enterInit,
          Event.exitInit, Event.doStep 0 1, Event.terminate, Event.freeInstance], []) := by
    decide
  refine ⟨hrun, ?_⟩
  have h := validate_single_instance
      ⟨(), fun s _ _ => s, fun s _ _ => s, fun _ _ => 0⟩ [] ⟨[], [], none⟩
      [[("time", 0)]] [] _ hrun
  simpa using h

/-- Claim C3: zero-expected-value boundary of the per-variable error
computation. When expected is exactly zero the engine never divides: an
actual below the 1e-6 epsilon in magnitude gives 0% error (PASS for any
nonnegative tolerance), and any non-negligible actual gives 100% error
(FAIL for any positive tolerance below 100). -/
theorem zero_expected_boundary (a tol : ℚ) :
    (|a| < 1 / 1000000 → error_pct a 0 = 0)
      ∧ (0 ≤ tol → |a| < 1 / 1000000 → check_status tol a 0 = "PASS")
      ∧ (¬ |a| < 1 / 1000000 → error_pct a 0 = 100)
      ∧ (0 < tol → tol < 100 → ¬ |a| < 1 / 1000000 → check_status tol a 0 = "FAIL") := by
  have hz : error_pct a 0 = if |a| < 1 / 1000000 then 0 else 100 := by
    unfold error_pct
    simp
  refine ⟨fun h => by rw [hz, if_pos h], fun ht h => ?_,
    fun h => by rw [hz, if_neg h], fun ht1 ht2 h => ?_⟩
  · unfold check_status
    rw [hz, if_pos h, if_pos ht]
  · unfold check_status
    rw [hz, if_neg h, if_neg (not_le.mpr ht2)]

/-- Concrete instantiation of zero_expected_boundary: expected 0 and actual 0
is 0% error and PASS at tolerance 5; expected 0 and actual 1 is 100% error
and FAIL at tolerance 5. -/
theorem zero_expected_boundary_inst :
    error_pct 0 0 = 0 ∧ check_status 5 0 0 = "PASS"
      ∧ error_pct 1 0 = 100 ∧ check_status 5 1 0 = "FAIL" :=
  ⟨(zero_expected_boundary 0 5).1 (by norm_num),
   (zero_expected_boundary 0 5).2.1 (by norm_num) (by norm_num),
   (zero_expected_boundary 1 5).2.2.1 (by norm_num),
   (zero_expected_boundary 1 5).2.2.2 (by norm_num) (by norm_num) (by norm_num)⟩

/-- Claim C4: tolerance boundary of the per-variable check. An error exactly
equal to the tolerance is judged PASS and records no failure; an error
strictly above the tolerance is judged FAIL and records the failure — the
comparison is error_pct <= tolerance for PASS and error_pct > tolerance for
recording, so there is no off-by-one at the boundary. -/
theorem tolerance_boundary (a e tol t : ℚ) (outName : String) :
    (error_pct a e = tol →
        check_status tol a e = "PASS" ∧ check_failure tol t outName a e = none)
      ∧ (error_pct a e > tol →
        check_status tol a e = "FAIL"
          ∧ check_failure tol t outName a e
              = some ⟨t, outName, a, e, error_pct a e⟩) := by
  constructor
  · intro h
    refine ⟨?_, ?_⟩
    · unfold check_status
      rw [if_pos (le_of_eq h)]
    · unfold check_failure
      rw [if_neg (by rw [h]; exact lt_irrefl tol)]
  · intro h
    refine ⟨?_, ?_⟩
    · unfold check_status
      rw [if_neg (not_le.mpr h)]
    · unfold check_failure
      rw [if_pos h]

/-- Concrete instantiation of tolerance_boundary: actual 21 against expected
20 is exactly 5% error, PASS and unrecorded at tolerance 5; actual 22 against
expected 20 is 10% error, FAIL at tolerance 5. -/
theorem tolerance_boundary_inst :
    check_status 5 21 20 = "PASS" ∧ check_failure 5 0 ("y") 21 20 = none
      ∧ check_status 5 22 20 = "FAIL" := by
  have he1 : error_pct 21 20 = 5 := by
    unfold error_pct
    rw [if_pos (by norm_num : (20 : ℚ) ≠ 0),
      show ((21 : ℚ) - 20) / 20 = 1 / 20 by norm_num,
      abs_of_nonneg (by norm_num : (0 : ℚ) ≤ 1 / 20)]
    norm_num
  have he2 : error_pct 22 20 > 5 := by
    unfold error_pct
    rw [if_pos (by norm_num : (20 : ℚ) ≠ 0),
      show ((22 : ℚ) - 20) / 20 = 1 / 10 by norm_num,
      abs_of_nonneg (by norm_num : (0 : ℚ) ≤ 1 / 10)]
    norm_num
  have h1 := (tolerance_boundary 21 20 5 0 ("y")).1 he1
  have h2 := (tolerance_boundary 22 20 5 0 ("y")).2 he2
  exact ⟨h1.1, h1.2, h2.1⟩

theorem setInputs_skip {σ : Type} (M : FMU σ) (vrs : List (String × Nat)) (row : Row) :
    ∀ (inputs : List VarSpec), (∀ v ∈ inputs, vrsGet vrs v.name = none) →
      ∀ s : σ, setInputs M vrs inputs row s = (s, []) := by
  have haux : ∀ (inputs : List VarSpec), (∀ v ∈ inputs, vrsGet vrs v.name = none) →
      ∀ acc : σ × List Event, inputs.foldl (setInputStep M vrs row) acc = acc := by
    intro inputs
    induction inputs with
    | nil => intro _ acc; rfl
    | cons v rest ih =>
        intro hins acc
        rw [List.foldl_cons]
        have hstep : setInputStep M vrs row acc v = acc := by
          unfold setInputStep
          cases h1 : rowGet row v.name with
          | none => rfl
          | some value => rw [hins v (by simp)]
        rw [hstep]
        exact ih (fun x hx => hins x (List.mem_cons_of_mem _ hx)) acc
  intro inputs hins s
  exact haux inputs hins (s, [])

theorem readOutputs_skip {σ : Type} (M : FMU σ) (vrs : List (String × Nat))
    (outputs : List VarSpec)
    (houts : ∀ v ∈ outputs, vrsGet vrs (resolveOutputVar v) = none) :
    ∀ s : σ, readOutputs M vrs outputs s = ([], []) := by
  intro s
  unfold readOutputs
  have h1 : outputs.filterMap (fun v =>
      (vrsGet vrs (resolveOutputVar v)).map (fun vr => (v.name, M.getReal s vr))) = [] := by
    rw [List.filterMap_eq_nil]
    intro v hv
    rw [houts v hv]
    rfl
  have h2 : outputs.filterMap (fun v =>
      (vrsGet vrs (resolveOutputVar v)).map (fun vr => Event.getReal vr)) = [] := by
    rw [List.filterMap_eq_nil]
    intro v hv
    rw [houts v hv]
    rfl
  rw [h1, h2]

theorem validate_rows_skip {σ : Type} (M : FMU σ) (vrs : List (String × Nat))
    (cfg : ValConfig) (tol : ℚ)
    (hins : ∀ v ∈ cfg.inputs, vrsGet vrs v.name = none)
    (houts : ∀ v ∈ cfg.outputs, vrsGet vrs (resolveOutputVar v) = none) :
    ∀ (rows expected : List Row) (s : σ) (r : σ × List Event × List Failure),
      validate_rows M vrs cfg tol rows expected s = some r →
      r.2.2 = [] ∧ ∀ e ∈ r.2.1, isStepEvent e = true := by
  intro rows
  induction rows with
  | nil =>
      intro expected s r h
      unfold validate_rows at h
      simp only [Option.some_inj] at h
      subst h
      exact ⟨rfl, by intro e he; simp at he⟩
  | cons row rest ih =>
      intro expected s r h
      unfold validate_rows at h
      split at h
      · cases h
      · dsimp only at h
        split at h
        · cases h
        · rename_i r0 h2
          simp only [Option.some_inj] at h
          subst h
          obtain ⟨hf, he⟩ := ih expected.tail _ r0 h2
          refine ⟨?_, ?_⟩
          · cases expected with
            | nil => simpa using hf
            | cons erow etail =>
                simp [readOutputs_skip M vrs cfg.outputs houts, compareRow, hf]
          · intro e hee
            simp only [setInputs_skip M vrs row cfg.inputs hins,
              readOutputs_skip M vrs cfg.outputs houts, List.nil_append,
              List.singleton_append, List.mem_cons] at hee
            rcases hee with hee | hee
            · subst hee; rfl
            · exact he e hee

/-- Claim C10: when no configured interface variable resolves to a variable of
the loaded FMU (inputs are looked up by name, outputs by their fmu_variable
alias falling back to the name), the engine silently skips them all: no
setReal and no getReal call is ever issued, no failure can be recorded, and
the aggregate verdict is PASS even though zero output variables were
checked. -/
theorem unresolved_vars_skipped {σ : Type} (M : FMU σ) (vrs : List (String × Nat))
    (cfg : ValConfig) (tin texp : List Row) (r : Bool × List Event × List Failure)
    (hins : ∀ v ∈ cfg.inputs, vrsGet vrs v.name = none)
    (houts : ∀ v ∈ cfg.outputs, vrsGet vrs (resolveOutputVar v) = none)
    (h : validate_fmu M vrs true cfg tin texp = some r) :
    r.1 = true ∧ r.2.2 = []
      ∧ ∀ e ∈ r.2.1, isSetRealEvent e = false ∧ isGetRealEvent e = false := by
  unfold validate_fmu at h
  dsimp only at h
  split at h
  · cases h
  · rename_i r0 h2
    simp only [Option.some_inj] at h
    subst h
    obtain ⟨hf, he⟩ := validate_rows_skip M vrs cfg (cfg.tolerance_percent.getD 5)
      hins houts tin texp M.instantiate r0 h2
    refine ⟨?_, by simpa using hf, ?_⟩
    · cases texp with
      | nil => rfl
      | cons a b => simp [hf]
    · intro e hee
      simp only [List.mem_cons, List.mem_append, List.not_mem_nil, or_false] at hee
      rcases hee with hee | hee | hee | hee | hee | hee | hee
      · subst hee; exact ⟨rfl, rfl⟩
      · subst hee; exact ⟨rfl, rfl⟩
      · subst hee; exact ⟨rfl, rfl⟩
      · subst hee; exact ⟨rfl, rfl⟩
      · have := he e hee
        cases e <;> simp_all [isStepEvent, isSetRealEvent, isGetRealEvent]
      · subst hee; exact ⟨rfl, rfl⟩
      · subst hee; exact ⟨rfl, rfl⟩

/-- Concrete instantiation of unresolved_vars_skipped: an input u and an
output y aliased to out_y, neither present in the FMU variable table, with
one test row and one expected row: the run reports PASS with no failures and
issues no setReal or getReal call. -/
theorem unresolved_vars_skipped_inst :
    ((true, [Event.instantiate, Event.setupExperiment 0, Event.enterInit, Event.exitInit,
        Event.doStep 0 1, Event.terminate, Event.freeInstance],
      ([] : List Failure)) : Bool × List Event × List Failure).1 = true
      ∧ ((true, [Event.instantiate, Event.setupExperiment 0, Event.enterInit, Event.exitInit,
            Event.doStep 0 1, Event.terminate, Event.freeInstance],
          ([] : List Failure)) : Bool × List Event × List Failure).2.2 = []
      ∧ ∀ e ∈ ((true, [Event.instantiate, Event.setupExperiment 0, Event.enterInit,
            Event.exitInit, Event.doStep 0 1, Event.terminate, Event.freeInstance],
          ([] : List Failure)) : Bool × List Event × List Failure).2.1,
          isSetRealEvent e = false ∧ isGetRealEvent e = false :=
  unresolved_vars_skipped
    (⟨(), fun s _ _ => s, fun s _ _ => s, fun _ _ => 0⟩ : FMU Unit)
    [("other", 0)] ⟨[⟨"u", none⟩], [⟨"y", some ("out_y")⟩], none⟩
    [[("time", 0), ("u", 1)]] [[("time", 0), ("y", 5)]] _
    (by decide) (by decide) (by decide)

/- ----------------------------------------------------------------------------
   Validation-CSV splitter (build/split_validation_csv.py, lines 26-98)
   ---------------------------------------------------------------------------- -/

/-- A raw CSV row as csv.DictReader yields it: column name to cell text. -/
abbrev CsvRow := List (String × String)

/-- Cell lookup with the empty-string default of row.get(col, '')
(split_validation_csv.py lines 83 and 92). -/
def rowGetD (row : CsvRow) (c : String) : String :=
  ((row.find? (fun p => p.1 == c)).map (fun p => p.2)).getD ("")

/-- A header-driven tabular file. -/
structure Csv where
  header : List String
  rows : List CsvRow
  deriving DecidableEq, Repr

/-- Outcome of split_validation_csv, separating the two kinds of Python
control flow its caller can observe: sys.exit (SystemExit, which the caller's
`except Exception` does not catch) and an ordinary raised exception (which the
caller catches and downgrades); ok carries the missing-column warning lists
and the two written files. -/
inductive SplitResult where
  | fatalExit (msg : String)
  | raised (msg : String)
  | ok (missingInputs missingOutputs : List String) (inputsCsv outputsCsv : Csv)
  deriving DecidableEq, Repr

/-- Columns of a written file (lines 78 and 87): time plus the configured
names present in the combined file, in configured order. -/
def splitCols (names csv_columns : List String) : List String :=
  "time" :: names.filter (fun n => decide (n ∈ csv_columns))

/-- Rows of a written file (lines 82-84 and 91-93): each original row, in
original order, restricted to the chosen columns with row.get(col, ''). -/
def splitRows (cols : List String) (rows : List CsvRow) : List CsvRow :=
  rows.map (fun r => cols.map (fun c => (c, rowGetD r c)))

/-- split_validation_csv (lines 26-98): a combined file missing at the
splitter's path exits (lines 38-41), a config without the interface lists
raises a KeyError (lines 44-45), an empty combined file exits (lines 57-59);
otherwise configured names absent from the file's columns are only collected
as warnings (lines 64-71) and the two files are written (lines 73-93). -/
def split_validation_csv (fileExists : Bool)
    (interface_names : Option (List String × List String)) (csv : Csv) : SplitResult :=
  match fileExists with
  | false => SplitResult.fatalExit ("validation file not found")
  | true =>
    match interface_names with
    | none => SplitResult.raised ("KeyError: interface")
    | some names =>
      match csv.rows with
      | [] => SplitResult.fatalExit ("Validation CSV is empty")
      | _ :: _ =>
        SplitResult.ok
          (names.1.filter (fun n => decide (n ∉ csv.header)))
          (names.2.filter (fun n => decide (n ∉ csv.header)))
          ⟨splitCols names.1 csv.header, splitRows (splitCols names.1 csv.header) csv.rows⟩
          ⟨splitCols names.2 csv.header, splitRows (splitCols names.2 csv.header) csv.rows⟩

theorem find_map_key (cols : List String) (f : String → String) (c : String) :
    (cols.map (fun x => (x, f x))).find? (fun p => p.1 == c)
      = if c ∈ cols then some (c, f c) else none := by
  induction cols with
  | nil => simp
  | cons a t ih =>
      simp only [List.map_cons]
      by_cases h : a = c
      · subst h
        rw [List.find?_cons_of_pos _ (by simp)]
        rw [if_pos (List.mem_cons_self a t)]
      · rw [List.find?_cons_of_neg _ (by simp [h])]
        rw [ih]
        by_cases hc : c ∈ t
        · rw [if_pos hc, if_pos (List.mem_cons_of_mem _ hc)]
        · rw [if_neg hc, if_neg (by
            intro hmem
            rcases List.mem_cons.1 hmem with hh | hh
            · exact h hh.symm
            · exact hc hh)]

theorem rowGetD_map_cols (cols : List String) (r : CsvRow) (c : String) :
    rowGetD (cols.map (fun x => (x, rowGetD r x))) c
      = if c ∈ cols then rowGetD r c else "" := by
  show (((cols.map (fun x => (x, rowGetD r x))).find? (fun p => p.1 == c)).map
      (fun p => p.2)).getD ("") = _
  rw [find_map_key cols (fun x => rowGetD r x) c]
  by_cases h : c ∈ cols <;> simp [h]

theorem rowGetD_join (inCols outCols : List String) (r : CsvRow) (c : String) :
    rowGetD (inCols.map (fun x => (x, rowGetD r x))
        ++ outCols.map (fun x => (x, rowGetD r x))) c
      = if c ∈ inCols then rowGetD r c
        else if c ∈ outCols then rowGetD r c else "" := by
  show (((inCols.map (fun x => (x, rowGetD r x))
      ++ outCols.map (fun x => (x, rowGetD r x))).find? (fun p => p.1 == c)).map
      (fun p => p.2)).getD ("") = _
  rw [List.find?_append, find_map_key inCols (fun x => rowGetD r x) c,
    find_map_key outCols (fun x => rowGetD r x) c]
  by_cases h1 : c ∈ inCols <;> by_cases h2 : c ∈ outCols <;> simp [h1, h2]

theorem splitRows_getD (cols : List String) (rows : List CsvRow) (i : Nat)
    (hi : i < rows.length) :
    (splitRows cols rows).getD i []
      = cols.map (fun c => (c, rowGetD (rows.getD i []) c)) := by
  unfold splitRows
  rcases hrow : rows[i]? with _ | rr
  · exact absurd (List.getElem?_eq_getElem hi) (by rw [hrow]; intro hh; cases hh)
  · rw [List.getD_eq_getElem?_getD, List.getElem?_map, hrow,
      List.getD_eq_getElem?_getD, hrow]
    rfl

/-- Claim C8: splitter round trip. For a combined reference file whose data
columns all come from the configured input and output names (plus time),
splitting produces an inputs file and an expected-outputs file that each
begin with a time column, keep one row per original row in original order,
and — rejoined by row index — reproduce every original per-row value
exactly; no missing-column warning is produced. -/
theorem split_roundtrip (inNames outNames : List String) (csv : Csv)
    (hne : csv.rows ≠ [])
    (hin : ∀ n ∈ inNames, n ∈ csv.header)
    (hout : ∀ n ∈ outNames, n ∈ csv.header)
    (hcov : ∀ c ∈ csv.header, c = "time" ∨ c ∈ inNames ∨ c ∈ outNames)
    (htime : "time" ∈ csv.header) :
    split_validation_csv true (some (inNames, outNames)) csv
        = SplitResult.ok [] []
            ⟨splitCols inNames csv.header, splitRows (splitCols inNames csv.header) csv.rows⟩
            ⟨splitCols outNames csv.header, splitRows (splitCols outNames csv.header) csv.rows⟩
      ∧ (splitCols inNames csv.header).head? = some "time"
      ∧ (splitCols outNames csv.header).head? = some "time"
      ∧ (splitRows (splitCols inNames csv.header) csv.rows).length = csv.rows.length
      ∧ (splitRows (splitCols outNames csv.header) csv.rows).length = csv.rows.length
      ∧ ∀ i, i < csv.rows.length → ∀ c ∈ csv.header,
          rowGetD ((splitRows (splitCols inNames csv.header) csv.rows).getD i []
              ++ (splitRows (splitCols outNames csv.header) csv.rows).getD i []) c
            = rowGetD (csv.rows.getD i []) c := by
  refine ⟨?_, rfl, rfl, by simp [splitRows], by simp [splitRows], ?_⟩
  · have hmin : inNames.filter (fun n => decide (n ∉ csv.header)) = [] := by
      rw [List.filter_eq_nil]
      intro n hn
      simp [hin n hn]
    have hmout : outNames.filter (fun n => decide (n ∉ csv.header)) = [] := by
      rw [List.filter_eq_nil]
      intro n hn
      simp [hout n hn]
    unfold split_validation_csv
    rcases hrows : csv.rows with _ | ⟨r0, rest⟩
    · exact absurd hrows hne
    · dsimp only
      rw [hmin, hmout]
  · intro i hi c hc
    rw [splitRows_getD _ _ _ hi, splitRows_getD _ _ _ hi, rowGetD_join]
    have hmem : c ∈ splitCols inNames csv.header ∨ c ∈ splitCols outNames csv.header := by
      rcases hcov c hc with h | h | h
      · left
        rw [h]
        exact List.mem_cons_self _ _
      · left
        exact List.mem_cons_of_mem _ (List.mem_filter.2 ⟨h, by simp [hc]⟩)
      · right
        exact List.mem_cons_of_mem _ (List.mem_filter.2 ⟨h, by simp [hc]⟩)
    by_cases h1 : c ∈ splitCols inNames csv.header
    · rw [if_pos h1]
    · rw [if_neg h1, if_pos (hmem.resolve_left h1)]

/-- Concrete instantiation of split_roundtrip on a one-row file with columns
time, u, y. -/
theorem split_roundtrip_inst :
    split_validation_csv true (some (["u"], ["y"]))
        ⟨["time", "u", "y"], [[("time", "0"), ("u", "1"), ("y", "2")]]⟩
      = SplitResult.ok [] []
          ⟨["time", "u"], [[("time", "0"), ("u", "1")]]⟩
          ⟨["time", "y"], [[("time", "0"), ("y", "2")]]⟩ := by
  have h := split_roundtrip ["u"] ["y"]
      ⟨["time", "u", "y"], [[("time", "0"), ("u", "1"), ("y", "2")]]⟩
      (by decide) (by decide) (by decide) (by decide) (by decide)
  exact h.1.trans (by decide)

/- ----------------------------------------------------------------------------
   Staging cleanup retry (twinctl.py, retry_rmtree inside stage_model,
   lines 61-71)
   ---------------------------------------------------------------------------- -/

inductive RmEvent where
  | attempt (i : Nat)
  | sleep (d : ℚ)
  deriving DecidableEq, Repr

/-- The `for i in range(retries)` loop of retry_rmtree (twinctl.py lines
63-71) against an oracle giving, for attempt i, the OSError it raises (none
means the deletion succeeds). On success the function returns; on the last
failed attempt the error is re-raised; otherwise it warns and sleeps `delay`
seconds — the delay variable is never changed between attempts. The second
Nat argument is the number of loop iterations left (retries - i). -/
def retry_rmtree_loop (fail : Nat → Option String) (retries : Nat) (delay : ℚ) :
    Nat → Nat → List RmEvent × Except String Unit
  | _, 0 => ([], Except.ok ())
  | i, rem + 1 =>
    match fail i with
    | none => ([RmEvent.attempt i], Except.ok ())
    | some e =>
      if i = retries - 1 then ([RmEvent.attempt i], Except.error e)
      else
        let rest := retry_rmtree_loop fail retries delay (i + 1) rem
        (RmEvent.attempt i :: RmEvent.sleep delay :: rest.1, rest.2)

/-- retry_rmtree with the call-site defaults retries=3, delay=1.0 (twinctl.py
lines 61 and 76). -/
def retry_rmtree (fail : Nat → Option String) : List RmEvent × Except String Unit :=
  retry_rmtree_loop fail 3 1 0 3

def isAttempt : RmEvent → Bool
  | RmEvent.attempt _ => true
  | _ => false

def sleepsOf (l : List RmEvent) : List ℚ :=
  l.filterMap (fun e =>
    match e with
    | RmEvent.sleep d => some d
    | _ => none)

/-- Claim C9 counterexample: when every deletion attempt fails, the delays
slept between the three attempts are 1.0 and 1.0 — a fixed delay, not an
increasing one, so the claim's "increasing delay between attempts" fails
(the bounded retry count and the error-after-exhaustion behavior do hold,
see the amended theorem). -/
theorem retry_delay_cex :
    sleepsOf (retry_rmtree (fun _ => some ("locked"))).1 = [1, 1]
      ∧ ¬ List.Chain' (fun a b => a < b)
          (sleepsOf (retry_rmtree (fun _ => some ("locked"))).1)
      ∧ (retry_rmtree (fun _ => some ("locked"))).2 = Except.error ("locked") := by
  refine ⟨by decide, ?_, rfl⟩
  intro hchain
  have h2 : sleepsOf (retry_rmtree (fun _ => some ("locked"))).1 = [1, 1] := by decide
  rw [h2] at hchain
  rcases hchain with _ | ⟨hlt, _⟩
  exact absurd hlt (by norm_num)

/-- Claim C9 (amended): clearing retries the deletion up to the bounded retry
count 3 with a fixed 1.0-second delay (not an increasing delay) between
attempts, and surfaces the underlying OS error (the one of the final attempt)
only after all 3 attempts are exhausted. -/
theorem retry_bounded_fixed_delay (fail : Nat → Option String) :
    ((retry_rmtree fail).1.countP isAttempt ≤ 3)
      ∧ (∀ d, RmEvent.sleep d ∈ (retry_rmtree fail).1 → d = 1)
      ∧ (∀ e, (retry_rmtree fail).2 = Except.error e →
          (retry_rmtree fail).1.countP isAttempt = 3 ∧ fail 2 = some e) := by
  unfold retry_rmtree
  rcases h0 : fail 0 with _ | e0 <;> rcases h1 : fail 1 with _ | e1 <;>
    rcases h2 : fail 2 with _ | e2 <;>
      simp_all [retry_rmtree_loop, isAttempt, List.countP_cons, List.countP_nil]

/-- Concrete instantiation of retry_bounded_fixed_delay when every attempt
fails with the same OS error. -/
theorem retry_bounded_fixed_delay_inst :
    (retry_rmtree (fun _ => some ("busy"))).1.countP isAttempt = 3
      ∧ (fun _ => some ("busy") : Nat → Option String) 2 = some ("busy") :=
  (retry_bounded_fixed_delay (fun _ => some ("busy"))).2.2 ("busy") rfl

/- ----------------------------------------------------------------------------
   Config loading and pipeline control flow
   (build_fmu.py load_config lines 37-62 and main lines 165-236;
    twinctl.py stage_model lines 45-100 and cmd_build lines 164-174)
   ---------------------------------------------------------------------------- -/

structure RawModelica where
  model_class : Option String
  msl_version : Option String
  deriving DecidableEq, Repr

structure RawFiles where
  main : Option String
  dependencies : List String
  deriving DecidableEq, Repr

/-- The parsed project.yaml as a partial structure: section and field
presence model the dictionary lookups of load_config. -/
structure RawConfig where
  project : Bool
  modelica : Option RawModelica
  files : Option RawFiles
  fmu : Option FmuOpts
  external_libraries : List ExtLib
  interface_names : Option (List String × List String)
  deriving DecidableEq, Repr

/-- load_config validation (build_fmu.py lines 47-62): the four required
sections checked in order, then modelica.model_class, then files.main; each
missing piece exits fatally with a field-named message. -/
def load_config (raw : RawConfig) : Except String GenConfig :=
  match raw.project with
  | false => Except.error ("Error: 'project' section missing in project.yaml")
  | true =>
    match raw.modelica with
    | none => Except.error ("Error: 'modelica' section missing in project.yaml")
    | some m =>
      match raw.files with
      | none => Except.error ("Error: 'files' section missing in project.yaml")
      | some fs =>
        match raw.fmu with
        | none => Except.error ("Error: 'fmu' section missing in project.yaml")
        | some fm =>
          match m.model_class with
          | none =>
              Except.error ("Error: 'modelica.model_class' is required in project.yaml")
          | some mc =>
            match fs.main with
            | none => Except.error ("Error: 'files.main' is required in project.yaml")
            | some mn =>
                Except.ok ⟨mc, mn, fs.dependencies, raw.external_libraries,
                  m.msl_version, fm⟩

/-- Observable side-effecting steps of the build pipeline. -/
inductive Act where
  | clearWorkspace
  | mkdirWorkspace
  | copySrc
  | copyTestData
  | mkTestData
  | copyConfig
  | generateScript
  | copyBuildMos
  | dockerBuild
  | extractFmu
  deriving DecidableEq, Repr

/-- Environment of one build_fmu.py main run: the parsed config and the
filesystem/backend facts its branches test. -/
structure BuildEnv where
  raw : RawConfig
  files_ok : Bool
  client_csv_exists : Bool
  split_path_exists : Bool
  csv : Csv
  docker_ok : Bool

/-- One build_fmu.py main outcome: side-effect trace, printed warnings, and
process exit code (0 = success). -/
structure BuildOutcome where
  acts : List Act
  warnings : List String
  exitCode : Nat
  deriving DecidableEq, Repr

/-- Steps 4-5 of build_fmu.py main after the optional CSV split (lines
214-254): copy the generated script over build.mos, run the Docker build
(fatal on a nonzero exit), then extract the FMU. -/
def buildTail (env : BuildEnv) (acts : List Act) (warnings : List String) :
    BuildOutcome :=
  match env.docker_ok with
  | false => ⟨acts ++ [Act.copyBuildMos, Act.dockerBuild], warnings, 1⟩
  | true => ⟨acts ++ [Act.copyBuildMos, Act.dockerBuild, Act.extractFmu], warnings, 0⟩

/-- build_fmu.py main (lines 165-236): load_config (exits on config errors,
before any side-effecting step), validate_files (exits on missing files),
generate the script (writes a file), optionally split the client validation
CSV — a SystemExit from the splitter propagates and kills the build, while
an ordinary exception is caught, printed as a warning, and the build
continues (lines 201-205) — then the Docker steps. -/
def build_fmu_main (env : BuildEnv) : BuildOutcome :=
  match load_config env.raw with
  | Except.error _ => ⟨[], [], 1⟩
  | Except.ok _ =>
    match env.files_ok with
    | false => ⟨[], [], 1⟩
    | true =>
      match env.client_csv_exists with
      | false => buildTail env [Act.generateScript] []
      | true =>
        match split_validation_csv env.split_path_exists env.raw.interface_names
            env.csv with
        | SplitResult.fatalExit _ => ⟨[Act.generateScript], [], 1⟩
        | SplitResult.raised m =>
            buildTail env [Act.generateScript]
              ["Warning: Failed to split CSV: " ++ m]
        | SplitResult.ok _ _ _ _ => buildTail env [Act.generateScript] []

/-- Environment of one twinctl stage_model run. -/
structure StageEnv where
  model_exists : Bool
  config_exists : Bool
  active_exists : Bool
  rm_fail : Nat → Option String
  src_exists : Bool
  test_data_exists : Bool

/-- The copy phase of stage_model (twinctl.py lines 82-97): recreate the
workspace, copy the model's src tree if present, its test_data tree (or make
an empty one), and its project.yaml. (Copy failures, which would also be
fatal, are not modelled.) -/
def stage_copies (env : StageEnv) (acts : List Act) : List Act × Option Nat :=
  (acts ++ [Act.mkdirWorkspace]
      ++ (if env.src_exists then [Act.copySrc] else [])
      ++ (if env.test_data_exists then [Act.copyTestData] else [Act.mkTestData])
      ++ [Act.copyConfig], none)

/-- stage_model (twinctl.py lines 45-100): missing model directory or missing
project.yaml exit before any side effect; an existing workspace is cleared
through retry_rmtree, exiting only if the retries are exhausted; then the
copies run. -/
def stage_model (env : StageEnv) : List Act × Option Nat :=
  match env.model_exists with
  | false => ([], some 1)
  | true =>
    match env.config_exists with
    | false => ([], some 1)
    | true =>
      match env.active_exists with
      | false => stage_copies env []
      | true =>
        match (retry_rmtree env.rm_fail).2 with
        | Except.error _ => ([Act.clearWorkspace], some 1)
        | Except.ok _ => stage_copies env [Act.clearWorkspace]

/-- twinctl cmd_build for a single model (lines 164-174): stage_model first,
then build_fmu.py over the staged workspace. -/
def cmd_build_single (senv : StageEnv) (benv : BuildEnv) :
    List Act × List String × Nat :=
  match stage_model senv with
  | (acts, some code) => (acts, [], code)
  | (acts, none) =>
    ((acts ++ (build_fmu_main benv).acts, (build_fmu_main benv).warnings,
      (build_fmu_main benv).exitCode) : List Act × List String × Nat)

def isStagingAct : Act → Bool
  | Act.clearWorkspace => true
  | Act.mkdirWorkspace => true
  | Act.copySrc => true
  | Act.copyTestData => true
  | Act.mkTestData => true
  | Act.copyConfig => true
  | _ => false

theorem stage_copies_spec (env : StageEnv) (acts : List Act)
    (h : ∀ a ∈ acts, isStagingAct a = true) :
    (stage_copies env acts).2 = none
      ∧ ∀ a ∈ (stage_copies env acts).1, isStagingAct a = true := by
  unfold stage_copies
  refine ⟨rfl, ?_⟩
  intro a ha
  have hmem : a ∈ acts ∨ a = Act.mkdirWorkspace ∨ a = Act.copySrc
      ∨ a = Act.copyTestData ∨ a = Act.mkTestData ∨ a = Act.copyConfig := by
    rcases hs : env.src_exists <;> rcases ht : env.test_data_exists <;>
      rw [hs, ht] at ha <;> simp at ha <;> tauto
  rcases hmem with h1 | h1 | h1 | h1 | h1 | h1
  · exact h a h1
  · subst h1; rfl
  · subst h1; rfl
  · subst h1; rfl
  · subst h1; rfl
  · subst h1; rfl

theorem stage_model_spec (env : StageEnv) :
    ((stage_model env).2 = none ∨ (stage_model env).2 = some 1)
      ∧ ∀ a ∈ (stage_model env).1, isStagingAct a = true := by
  unfold stage_model
  cases env.model_exists
  · exact ⟨Or.inr rfl, by intro a ha; simp at ha⟩
  · cases env.config_exists
    · exact ⟨Or.inr rfl, by intro a ha; simp at ha⟩
    · cases env.active_exists
      · obtain ⟨h1, h2⟩ := stage_copies_spec env [] (by intro a ha; simp at ha)
        exact ⟨Or.inl h1, h2⟩
      · cases (retry_rmtree env.rm_fail).2
        · exact ⟨Or.inr rfl, by
            intro a ha
            simp only [List.mem_singleton] at ha
            subst ha; rfl⟩
        · obtain ⟨h1, h2⟩ := stage_copies_spec env [Act.clearWorkspace] (by
            intro a ha
            simp only [List.mem_singleton] at ha
            subst ha; rfl)
          exact ⟨Or.inl h1, h2⟩

/-- Claim C6 counterexample: with a staged model whose config has all four
required sections but no files.main, the twinctl build pipeline clears the
workspace and copies the model's files BEFORE the ConfigError is raised —
staging side effects do occur (the error does still precede script generation
and compilation; see the amended theorem). -/
theorem config_error_staging_cex :
    (cmd_build_single
        ⟨true, true, true, fun _ => none, true, true⟩
        ⟨⟨true, some ⟨some ("M"), none⟩, some ⟨none, []⟩,
            some ⟨none, none, none, none⟩, [], none⟩,
          true, false, false, ⟨[], []⟩, true⟩).1
      = [Act.clearWorkspace, Act.mkdirWorkspace, Act.copySrc,
         Act.copyTestData, Act.copyConfig]
      ∧ (cmd_build_single
          ⟨true, true, true, fun _ => none, true, true⟩
          ⟨⟨true, some ⟨some ("M"), none⟩, some ⟨none, []⟩,
              some ⟨none, none, none, none⟩, [], none⟩,
            true, false, false, ⟨[], []⟩, true⟩).2.2 = 1 := by
  decide

/-- Claim C6 (amended): for every config with all four required sections but
missing files.main or modelica.model_class, load_config fails with the
field-named fatal ConfigError before script generation and before any
compilation attempt: the build trace contains no generate-script,
docker-build or extract step, and the exit code is 1. However, in the twinctl
build pipeline the staging side effects (workspace cleared, files copied)
happen before the config content is validated, because cmd_build stages the
model before invoking build_fmu.py. -/
theorem config_error_no_build (senv : StageEnv) (benv : BuildEnv)
    (m : RawModelica) (fs : RawFiles)
    (hproj : benv.raw.project = true)
    (hm : benv.raw.modelica = some m)
    (hf : benv.raw.files = some fs)
    (hfmu : benv.raw.fmu.isSome = true)
    (hmissing : m.model_class = none ∨ fs.main = none) :
    (load_config benv.raw
          = Except.error ("Error: 'modelica.model_class' is required in project.yaml")
        ∨ load_config benv.raw
          = Except.error ("Error: 'files.main' is required in project.yaml"))
      ∧ (cmd_build_single senv benv).2.2 = 1
      ∧ Act.generateScript ∉ (cmd_build_single senv benv).1
      ∧ Act.dockerBuild ∉ (cmd_build_single senv benv).1
      ∧ Act.extractFmu ∉ (cmd_build_single senv benv).1 := by
  obtain ⟨fm, hfm⟩ := Option.isSome_iff_exists.1 hfmu
  have herr : load_config benv.raw
        = Except.error ("Error: 'modelica.model_class' is required in project.yaml")
      ∨ load_config benv.raw
        = Except.error ("Error: 'files.main' is required in project.yaml") := by
    unfold load_config
    rw [hproj, hm, hf, hfm]
    dsimp only
    cases hmc : m.model_class with
    | none => left; rfl
    | some mc =>
        cases hmain : fs.main with
        | none => right; rfl
        | some mn =>
            rcases hmissing with h | h
            · rw [hmc] at h; cases h
            · rw [hmain] at h; cases h
  have hbuild : build_fmu_main benv = ⟨[], [], 1⟩ := by
    unfold build_fmu_main
    rcases herr with h | h <;> rw [h]
  rcases hsm : stage_model senv with ⟨sacts, scode⟩
  have hsacts : ∀ a ∈ sacts, isStagingAct a = true := by
    have hspec := (stage_model_spec senv).2
    rw [hsm] at hspec
    exact hspec
  have hnotin : ∀ x : Act, isStagingAct x = false → x ∉ sacts := by
    intro x hx hmem
    rw [hsacts x hmem] at hx
    cases hx
  have hall : (cmd_build_single senv benv).2.2 = 1
      ∧ Act.generateScript ∉ (cmd_build_single senv benv).1
      ∧ Act.dockerBuild ∉ (cmd_build_single senv benv).1
      ∧ Act.extractFmu ∉ (cmd_build_single senv benv).1 := by
    unfold cmd_build_single
    rw [hsm]
    cases scode with
    | none =>
        dsimp only
        rw [hbuild]
        refine ⟨rfl, ?_, ?_, ?_⟩
        · simp only [List.append_nil]
          exact hnotin Act.generateScript rfl
        · simp only [List.append_nil]
          exact hnotin Act.dockerBuild rfl
        · simp only [List.append_nil]
          exact hnotin Act.extractFmu rfl
    | some code =>
        have hc : (sacts, some code).2 = none ∨ (sacts, some code).2 = some 1 := by
          have hspec := (stage_model_spec senv).1
          rw [hsm] at hspec
          exact hspec
        have hcode1 : code = 1 := by
          rcases hc with hc | hc
          · cases hc
          · exact Option.some_inj.1 hc
        subst hcode1
        dsimp only
        exact ⟨rfl, hnotin Act.generateScript rfl, hnotin Act.dockerBuild rfl,
          hnotin Act.extractFmu rfl⟩
  exact ⟨herr, hall.1, hall.2.1, hall.2.2.1, hall.2.2.2⟩

/-- Concrete instantiation of config_error_no_build on a config whose
files.main is missing. -/
theorem config_error_no_build_inst :
    load_config ⟨true, some ⟨some ("M"), none⟩, some ⟨none, []⟩,
          some ⟨none, none, none, none⟩, [], none⟩
        = Except.error ("Error: 'modelica.model_class' is required in project.yaml")
      ∨ load_config ⟨true, some ⟨some ("M"), none⟩, some ⟨none, []⟩,
          some ⟨none, none, none, none⟩, [], none⟩
        = Except.error ("Error: 'files.main' is required in project.yaml") :=
  (config_error_no_build ⟨true, true, true, fun _ => none, true, true⟩
    ⟨⟨true, some ⟨some ("M"), none⟩, some ⟨none, []⟩,
        some ⟨none, none, none, none⟩, [], none⟩,
      true, false, false, ⟨[], []⟩, true⟩
    ⟨some ("M"), none⟩ ⟨none, []⟩ rfl rfl rfl rfl (Or.inr rfl)).1

/-- Claim C7 counterexample: a config without the interface section makes the
CSV splitter raise an ordinary exception, which build_fmu.py main catches,
prints as a warning, and then continues to the Docker build and a successful
exit — a failure of the splitting step other than a missing-column warning
that is NOT fatal to the build. -/
theorem split_warning_cex :
    (build_fmu_main
        ⟨⟨true, some ⟨some ("M"), none⟩, some ⟨some ("Main.mo"), []⟩,
            some ⟨none, none, none, none⟩, [], none⟩,
          true, true, true, ⟨["time"], [[("time", "0")]]⟩, true⟩).warnings
      = ["Warning: Failed to split CSV: KeyError: interface"]
      ∧ Act.dockerBuild ∈ (build_fmu_main
          ⟨⟨true, some ⟨some ("M"), none⟩, some ⟨some ("Main.mo"), []⟩,
              some ⟨none, none, none, none⟩, [], none⟩,
            true, true, true, ⟨["time"], [[("time", "0")]]⟩, true⟩).acts
      ∧ (build_fmu_main
          ⟨⟨true, some ⟨some ("M"), none⟩, some ⟨some ("Main.mo"), []⟩,
              some ⟨none, none, none, none⟩, [], none⟩,
            true, true, true, ⟨["time"], [[("time", "0")]]⟩, true⟩).exitCode = 0 := by
  decide

/-- Claim C7 (amended): unresolved interface-column names during splitting are
downgraded to warnings inside a successful split; in addition, any splitter
failure raised as an ordinary exception (e.g. a config without the interface
section) is caught by the pipeline, reported as a warning, and the build
continues to the Docker build; only splitter failures that exit the process
directly (combined file missing at the splitter's path, or zero data rows)
are fatal to the build and prevent the Docker build. -/
theorem split_failure_policy (env : BuildEnv) (cfg : GenConfig)
    (hload : load_config env.raw = Except.ok cfg)
    (hfiles : env.files_ok = true)
    (hcsv : env.client_csv_exists = true) :
    (∀ m, split_validation_csv env.split_path_exists env.raw.interface_names env.csv
          = SplitResult.raised m →
        (build_fmu_main env).warnings = ["Warning: Failed to split CSV: " ++ m]
          ∧ Act.dockerBuild ∈ (build_fmu_main env).acts
          ∧ (build_fmu_main env).exitCode = (buildTail env [Act.generateScript]
              ["Warning: Failed to split CSV: " ++ m]).exitCode)
      ∧ (∀ m, split_validation_csv env.split_path_exists env.raw.interface_names env.csv
          = SplitResult.fatalExit m →
        (build_fmu_main env).exitCode = 1
          ∧ Act.dockerBuild ∉ (build_fmu_main env).acts)
      ∧ (∀ mi mo ic oc, split_validation_csv env.split_path_exists
            env.raw.interface_names env.csv = SplitResult.ok mi mo ic oc →
        (build_fmu_main env).warnings = []
          ∧ Act.dockerBuild ∈ (build_fmu_main env).acts) := by
  have hdocker : ∀ acts w, Act.dockerBuild ∈ (buildTail env acts w).acts := by
    intro acts w
    unfold buildTail
    cases env.docker_ok <;> simp
  have hwarn : ∀ acts w, (buildTail env acts w).warnings = w := by
    intro acts w
    unfold buildTail
    cases env.docker_ok <;> rfl
  refine ⟨?_, ?_, ?_⟩
  · intro m hm
    unfold build_fmu_main
    rw [hload, hfiles, hcsv, hm]
    exact ⟨hwarn _ _, hdocker _ _, rfl⟩
  · intro m hm
    unfold build_fmu_main
    rw [hload, hfiles, hcsv, hm]
    refine ⟨rfl, ?_⟩
    intro hmem
    have hmem2 : Act.dockerBuild ∈ [Act.generateScript] := hmem
    simp at hmem2
  · intro mi mo ic oc hm
    unfold build_fmu_main
    rw [hload, hfiles, hcsv, hm]
    exact ⟨hwarn _ _, hdocker _ _⟩

/-- Concrete instantiation of split_failure_policy on a config without the
interface section. -/
theorem split_failure_policy_inst :
    (build_fmu_main
        ⟨⟨true, some ⟨some ("M"), none⟩, some ⟨some ("Main.mo"), []⟩,
            some ⟨none, none, none, none⟩, [], none⟩,
          true, true, true, ⟨["time"], [[("time", "0")]]⟩, true⟩).warnings
        = ["Warning: Failed to split CSV: " ++ "KeyError: interface"]
      ∧ Act.dockerBuild ∈ (build_fmu_main
          ⟨⟨true, some ⟨some ("M"), none⟩, some ⟨some ("Main.mo"), []⟩,
              some ⟨none, none, none, none⟩, [], none⟩,
            true, true, true, ⟨["time"], [[("time", "0")]]⟩, true⟩).acts
      ∧ (build_fmu_main
          ⟨⟨true, some ⟨some ("M"), none⟩, some ⟨some ("Main.mo"), []⟩,
              some ⟨none, none, none, none⟩, [], none⟩,
            true, true, true, ⟨["time"], [[("time", "0")]]⟩, true⟩).exitCode
        = (buildTail
            ⟨⟨true, some ⟨some ("M"), none⟩, some ⟨some ("Main.mo"), []⟩,
                some ⟨none, none, none, none⟩, [], none⟩,
              true, true, true, ⟨["time"], [[("time", "0")]]⟩, true⟩
            [Act.generateScript]
            ["Warning: Failed to split CSV: " ++ "KeyError: interface"]).exitCode :=
  (split_failure_policy
    ⟨⟨true, some ⟨some ("M"), none⟩, some ⟨some ("Main.mo"), []⟩,
        some ⟨none, none, none, none⟩, [], none⟩,
      true, true, true, ⟨["time"], [[("time", "0")]]⟩, true⟩
    ⟨"M", "Main.mo", [], [], none, ⟨none, none, none, none⟩⟩
    rfl rfl rfl).1 ("KeyError: interface") rfl
